import Mathlib

/-!
Shallow embedding of the cPanel account-migration orchestrator (src/app.py):
the conflict check `check_destination_account`, the transfer pipeline
`transfer_account`, and the POST branch of the `index` route, together with
theorems settling the specification claims about them.

Remote effects (SSH sessions, remote command output, HTTP responses, SFTP
transfers) are modelled by explicit environment records supplying the data the
remote side would return, and each embedded operation additionally returns a
trace recording the externally visible effects (connections attempted, sessions
opened/closed, commands run, files written locally and remotely).
-/

/-- The five string statuses `check_destination_account` can return
(src/app.py lines 26-31 and 53-66). -/
inductive ConflictStatus where
  | overwrite_allowed
  | username_conflict
  | domain_conflict
  | no_conflict
  | connection_error
deriving DecidableEq, Repr

/-- Boolean prefix test on character lists (used to build the substring test
that models Python's `in` operator on strings). -/
def listPrefixOf : List Char → List Char → Bool
  | [], _ => true
  | _ :: _, [] => false
  | a :: as, b :: bs => a == b && listPrefixOf as bs

/-- `listSubstrOf needle haystack`: `needle` occurs contiguously in `haystack`. -/
def listSubstrOf (needle : List Char) : List Char → Bool
  | [] => needle.isEmpty
  | b :: bs => listPrefixOf needle (b :: bs) || listSubstrOf needle bs

/-- Python's substring test `needle in haystack` (line 54: `username in result_domain`). -/
def strContains (haystack needle : String) : Bool :=
  listSubstrOf needle.toList haystack.toList

/-- The pure decision logic of `check_destination_account` (src/app.py lines 53-61):
Python truthiness of a string is non-emptiness, and `username in result_domain`
is a substring test. -/
def classify (result_username result_domain username : String) : ConflictStatus :=
  if !result_username.isEmpty && !result_domain.isEmpty then
    if strContains result_domain username then .overwrite_allowed
    else .username_conflict
  else if !result_domain.isEmpty then .domain_conflict
  else .no_conflict

/-- Behaviour of the destination host as seen by `check_destination_account`:
whether the SSH connect succeeds, and for each executed command either its
stripped stdout text (`some out`) or a raised local exception (`none`). -/
structure DestEnv where
  connectOk : Bool
  exec : String → Option String

/-- Externally visible effects of one run of `check_destination_account`. -/
structure CheckTrace where
  connectAttempted : Bool
  sessionOpened : Bool
  sessionClosed : Bool
  commandsRun : List String
deriving DecidableEq, Repr

/-- The single-quote character used in the grep command string (line 46). -/
def shQuote : String := String.singleton (Char.ofNat 39)

/-- Embedding of `check_destination_account` (src/app.py lines 21-66).
The whole body is a `try`: a failed connect, or an exception raised by either
remote command, is caught and returns `connection_error`; note that the
`except` path does not close the SSH session (`ssh.close()` is only on line 51,
before the classification), which the trace records. -/
def check_destination_account (env : DestEnv)
    (_destination_host _destination_root_user _destination_root_pass : String)
    (domain username : String) : ConflictStatus × CheckTrace :=
  if !env.connectOk then
    (.connection_error, ⟨true, false, false, []⟩)
  else
    let cmd_username := "/scripts/whoowns " ++ username
    match env.exec cmd_username with
    | none => (.connection_error, ⟨true, true, false, [cmd_username]⟩)
    | some result_username =>
      let cmd_domain := "grep -R " ++ shQuote ++ domain ++ shQuote ++ " /var/cpanel/users"
      match env.exec cmd_domain with
      | none => (.connection_error, ⟨true, true, false, [cmd_username, cmd_domain]⟩)
      | some result_domain =>
        (classify result_username result_domain username,
         ⟨true, true, true, [cmd_username, cmd_domain]⟩)

/-- One HTTP response of the backup-API poll (src/app.py lines 101-107): the
status code, and the parsed `data.download_url` field of the JSON body
(`none` when the field is absent). -/
structure PollResp where
  status : Nat
  download_url : Option String
deriving DecidableEq, Repr

/-- Overall polling ceiling, seconds (line 94: `timeout = 600`). -/
def poll_timeout : Nat := 600

/-- Polling interval, seconds (line 95: `interval = 10`). -/
def poll_interval : Nat := 10

/-- Embedding of the polling loop (src/app.py lines 98-112).  The Python loop
runs `while elapsed < timeout` with `elapsed += interval` at the top of each
body, so it executes at most `timeout / interval` iterations; `fuel` is the
number of iterations still permitted and `i` the index of the next poll.
A non-200 response is `continue`d; a 200 response breaks the loop only when
`download_url` is truthy (present and non-empty).  Returns the url found (if
any) and the number of iterations performed. -/
def pollLoop (polls : Nat → PollResp) : Nat → Nat → Option String × Nat
  | _, 0 => (none, 0)
  | i, fuel + 1 =>
    let resp := polls i
    if resp.status ≠ 200 then
      let r := pollLoop polls (i + 1) fuel
      (r.1, r.2 + 1)
    else
      match resp.download_url with
      | some u =>
        if !u.isEmpty then (some u, 1)
        else
          let r := pollLoop polls (i + 1) fuel
          (r.1, r.2 + 1)
      | none =>
        let r := pollLoop polls (i + 1) fuel
        (r.1, r.2 + 1)

/-- A poll response that makes the loop stop: HTTP 200 with a truthy
(non-empty) `download_url`. -/
def pollReady (p : PollResp) : Bool :=
  p.status == 200 &&
    (match p.download_url with
     | some u => !u.isEmpty
     | none => false)

/-- `os.path.basename` (line 119): the text after the last slash, computed as
the longest slash-free suffix of the string. -/
def basename (s : String) : String :=
  String.mk ((s.toList.reverse.takeWhile (fun c => c != '/')).reverse)

/-- Behaviour of the remote systems as seen by `transfer_account`: the HTTP
status of the backup trigger, the sequence of poll responses, the HTTP status
of the artifact download, whether the destination SSH connect and the SFTP put
raise a local exception (`some detail`) or succeed (`none`), and the output
chunks plus exit status of the remote restore command. -/
structure PipeEnv where
  triggerStatus : Nat
  polls : Nat → PollResp
  downloadStatus : Nat
  sshConnectExn : Option String
  sftpPutExn : Option String
  restoreChunks : List String
  restoreExit : Nat

/-- Externally visible effects of one run of `transfer_account`. -/
structure PipeTrace where
  triggerRequested : Bool
  pollCount : Nat
  downloadFilename : Option String
  downloadPath : Option String
  localFiles : List String
  sshOpened : Bool
  sshClosed : Bool
  uploaded : List String
  restoreRan : Bool
deriving DecidableEq, Repr

/-- Embedding of `transfer_account` (src/app.py lines 68-175).  The whole body
is a `try`: an exception anywhere is caught and returns
`(False, "Exception occurred: " + str(e))`.  The trace records that the
`except` paths after the destination SSH connect never close that session
(there is no `finally`), that the local backup file written in step 3 is never
removed on any path, and that `remote_backup_path = backup_local_path`
(line 139). -/
def transfer_account (env : PipeEnv)
    (_source_host _source_user _source_pass : String)
    (_destination_host _destination_root_user _destination_root_pass : String) :
    (Bool × String) × PipeTrace :=
  if env.triggerStatus ≠ 200 then
    ((false, "Failed to trigger backup on source server."),
     ⟨true, 0, none, none, [], false, false, [], false⟩)
  else
    let pr := pollLoop env.polls 0 (poll_timeout / poll_interval)
    match pr.1 with
    | none =>
      ((false, "Backup file was not ready in time."),
       ⟨true, pr.2, none, none, [], false, false, [], false⟩)
    | some download_url =>
      let filename := basename download_url
      let backup_local_path := "/home/" ++ filename
      if env.downloadStatus ≠ 200 then
        ((false, "Failed to download backup file."),
         ⟨true, pr.2, none, none, [], false, false, [], false⟩)
      else
        match env.sshConnectExn with
        | some e =>
          ((false, "Exception occurred: " ++ e),
           ⟨true, pr.2, some filename, some backup_local_path,
            [backup_local_path], false, false, [], false⟩)
        | none =>
          let remote_backup_path := backup_local_path
          match env.sftpPutExn with
          | some e =>
            ((false, "Exception occurred: " ++ e),
             ⟨true, pr.2, some filename, some backup_local_path,
              [backup_local_path], true, false, [], false⟩)
          | none =>
            let progress_output := String.join env.restoreChunks
            if env.restoreExit ≠ 0 then
              ((false, progress_output),
               ⟨true, pr.2, some filename, some backup_local_path,
                [backup_local_path], true, true, [remote_backup_path], true⟩)
            else
              ((true, progress_output),
               ⟨true, pr.2, some filename, some backup_local_path,
                [backup_local_path], true, true, [remote_backup_path], true⟩)

/-- The form data gathered by the `index` route on POST (src/app.py 181-189). -/
structure MigrationRequest where
  source_host : String
  source_user : String
  source_pass : String
  destination_host : String
  destination_root_user : String
  destination_root_pass : String
  username : String
  domain : String
  overwrite : Bool
deriving Repr

/-- What the `index` route returns to the browser: a flash message plus a
redirect back to the form, or the rendered progress page. -/
inductive IndexOutcome where
  | redirectWithFlash (message category : String)
  | progressPage (progress : String)
deriving DecidableEq, Repr

/-- `true` exactly on the flash-and-redirect outcome. -/
def IndexOutcome.isRedirect : IndexOutcome → Bool
  | .redirectWithFlash _ _ => true
  | .progressPage _ => false

/-- The call the `index` route makes to the pipeline (src/app.py 209-212):
note it passes only the host and credential fields of the request, never
`username`, `domain` or `overwrite`. -/
def runPipeline (env : PipeEnv) (r : MigrationRequest) : (Bool × String) × PipeTrace :=
  transfer_account env r.source_host r.source_user r.source_pass
    r.destination_host r.destination_root_user r.destination_root_pass

/-- Embedding of the POST branch of the `index` route (src/app.py 179-217).
The route performs no validation of the form fields; it immediately runs the
conflict check, then branches on the returned status: `connection_error`,
`username_conflict`, and `overwrite_allowed`-without-consent each flash and
redirect, and every other status (including `domain_conflict`) falls into the
`else` that invokes `transfer_account`.  Returns the page outcome, the
conflict-check trace, and the pipeline trace (`none` when the pipeline was
never invoked). -/
def index (cenv : DestEnv) (penv : PipeEnv) (r : MigrationRequest) :
    IndexOutcome × CheckTrace × Option PipeTrace :=
  let c := check_destination_account cenv r.destination_host
    r.destination_root_user r.destination_root_pass r.domain r.username
  if c.1 = .connection_error then
    (.redirectWithFlash
      "Unable to connect to the destination server. Check credentials and network connectivity."
      "error", c.2, none)
  else if c.1 = .username_conflict then
    (.redirectWithFlash
      "The domain exists with a different username on the destination. Update the username on the destination first."
      "error", c.2, none)
  else if c.1 = .overwrite_allowed ∧ r.overwrite = false then
    (.redirectWithFlash
      "An account with this domain and username already exists. Check the overwrite option to proceed."
      "warning", c.2, none)
  else
    let t := runPipeline penv r
    if t.1.1 then
      (.progressPage t.1.2, c.2, some t.2)
    else
      (.redirectWithFlash ("Transfer failed. Progress details: " ++ t.1.2) "error",
       c.2, some t.2)

/-- A destination whose probes answer: username not owned (whoowns prints
nothing), domain found in /var/cpanel/users under another user — the
`domain_conflict` scenario. -/
def cenvDomainConflict : DestEnv :=
  ⟨true, fun c => if c = "/scripts/whoowns user1" then some "" else some "user2: example.com"⟩

/-- A destination that refuses the SSH connection. -/
def cenvConnFail : DestEnv := ⟨false, fun _ => none⟩

/-- A destination that accepts the connection but where every remote command
raises a local exception. -/
def cenvExecRaises : DestEnv := ⟨true, fun _ => none⟩

/-- A destination where both probe commands print nothing (no username, no
domain record). -/
def cenvEmptyAnswers : DestEnv := ⟨true, fun _ => some ""⟩

/-- A poll response announcing the backup is ready. -/
def pollReadyResp : PollResp :=
  ⟨200, some "https://src:2083/download/backup-file.tar.gz"⟩

/-- A pipeline environment where everything succeeds: trigger 200, backup
ready on the first poll, download 200, SSH and SFTP fine, restore prints one
chunk and exits 0. -/
def penvAllGood : PipeEnv :=
  ⟨200, fun _ => pollReadyResp, 200, none, none, ["restore ok"], 0⟩

/-- A pipeline environment where every poll returns HTTP 500, so the backup
never becomes ready. -/
def penvNeverReady : PipeEnv :=
  ⟨200, fun _ => ⟨500, none⟩, 200, none, none, [], 0⟩

/-- A pipeline environment whose restore produces no output and exits 1. -/
def penvRestoreFails : PipeEnv :=
  ⟨200, fun _ => pollReadyResp, 200, none, none, [], 1⟩

/-- A pipeline environment whose restore prints two chunks and exits 2. -/
def penvRestoreFailsChunks : PipeEnv :=
  ⟨200, fun _ => pollReadyResp, 200, none, none, ["chunk1 ", "chunk2"], 2⟩

/-- A pipeline environment where the SFTP put raises after the destination
SSH session was opened. -/
def penvSftpRaises : PipeEnv :=
  ⟨200, fun _ => pollReadyResp, 200, none, some "put failed", [], 0⟩

/-- A fully populated migration request. -/
def reqStd : MigrationRequest :=
  ⟨"src.example", "srcuser", "srcpass", "dst.example", "root", "rootpass",
   "user1", "example.com", false⟩

/-- A request whose username field is empty. -/
def reqEmptyUsername : MigrationRequest :=
  ⟨"src.example", "srcuser", "srcpass", "dst.example", "root", "rootpass",
   "", "example.com", false⟩

/-- Two requests identical on every host and credential field but naming
different accounts. -/
def reqAlice : MigrationRequest :=
  ⟨"src.example", "srcuser", "srcpass", "dst.example", "root", "rootpass",
   "alice", "alice.com", true⟩

/-- See `reqAlice`. -/
def reqBob : MigrationRequest :=
  ⟨"src.example", "srcuser", "srcpass", "dst.example", "root", "rootpass",
   "bob", "bob.org", false⟩

/-- C2: case analysis of the conflict resolver: with both lookups non-empty,
the result is `overwrite_allowed` exactly when the domain record text contains
the requested username and `username_conflict` otherwise; with only the domain
lookup non-empty it is `domain_conflict`; with neither found it is
`no_conflict`. -/
theorem C2_resolver_case_analysis (ru rd u : String) :
    (ru.isEmpty = false → rd.isEmpty = false →
      classify ru rd u =
        (if strContains rd u then .overwrite_allowed else .username_conflict)) ∧
    (ru.isEmpty = true → rd.isEmpty = false → classify ru rd u = .domain_conflict) ∧
    (ru.isEmpty = true → rd.isEmpty = true → classify ru rd u = .no_conflict) := by
  refine ⟨?_, ?_, ?_⟩ <;> intro h1 h2 <;> simp [classify, h1, h2]

/-- Concrete instances of `C2_resolver_case_analysis`, one per scenario. -/
theorem C2_resolver_case_analysis_witness :
    classify "user1" "user1: example.com" "user1" = .overwrite_allowed ∧
    classify "user2" "user2: example.com" "user1" = .username_conflict ∧
    classify "" "user2: example.com" "user1" = .domain_conflict ∧
    classify "" "" "user1" = .no_conflict := by
  refine ⟨?_, ?_, ?_, ?_⟩
  · rw [(C2_resolver_case_analysis "user1" "user1: example.com" "user1").1 (by decide) (by decide)]
    decide
  · rw [(C2_resolver_case_analysis "user2" "user2: example.com" "user1").1 (by decide) (by decide)]
    decide
  · exact (C2_resolver_case_analysis "" "user2: example.com" "user1").2.1 (by decide) (by decide)
  · exact (C2_resolver_case_analysis "" "" "user1").2.2 (by decide) (by decide)

/-- The polling loop never performs more iterations than it has fuel. -/
theorem pollLoop_count_le (polls : Nat → PollResp) (i fuel : Nat) :
    (pollLoop polls i fuel).2 ≤ fuel := by
  induction fuel generalizing i with
  | zero => simp [pollLoop]
  | succ f ih =>
    unfold pollLoop
    dsimp only
    split
    · simpa using Nat.succ_le_succ (ih (i + 1))
    · split
      · split
        · simp
        · simpa using Nat.succ_le_succ (ih (i + 1))
      · simpa using Nat.succ_le_succ (ih (i + 1))

/-- If no poll response is ever ready, the loop exhausts all its fuel and
finds no url. -/
theorem pollLoop_none_of_never_ready (polls : Nat → PollResp)
    (h : ∀ j, pollReady (polls j) = false) (i fuel : Nat) :
    pollLoop polls i fuel = (none, fuel) := by
  induction fuel generalizing i with
  | zero => simp [pollLoop]
  | succ f ih =>
    have hj := h i
    unfold pollReady at hj
    unfold pollLoop
    dsimp only
    split
    · simp [ih (i + 1)]
    · rename_i hst
      rw [not_not] at hst
      rw [hst] at hj
      simp only [beq_self_eq_true, Bool.true_and] at hj
      cases hdl : (polls i).download_url with
      | none => simp [hdl, ih (i + 1)]
      | some u =>
        rw [hdl] at hj
        simp only [Bool.not_eq_false'] at hj
        simp [hdl, hj, ih (i + 1)]

/-- C5: the polling loop performs at most `poll_timeout / poll_interval = 60`
iterations, and when the trigger succeeded but no poll ever yields a ready
download reference — however many polls soft-fail with non-200 statuses — the
pipeline returns the backup-timeout failure with success = false. -/
theorem C5_poll_bound_and_timeout (env : PipeEnv) (a b c d e f : String) :
    (pollLoop env.polls 0 (poll_timeout / poll_interval)).2 ≤ 60 ∧
    (env.triggerStatus = 200 → (∀ j, pollReady (env.polls j) = false) →
      (transfer_account env a b c d e f).1 = (false, "Backup file was not ready in time.")) := by
  constructor
  · simpa [poll_timeout, poll_interval] using
      pollLoop_count_le env.polls 0 (poll_timeout / poll_interval)
  · intro ht hp
    unfold transfer_account
    rw [pollLoop_none_of_never_ready env.polls hp 0 (poll_timeout / poll_interval)]
    simp [ht]

/-- Concrete instance of `C5_poll_bound_and_timeout`: with every poll
answering HTTP 500 the pipeline fails with the timeout message, and the loop
ran exactly its 60 permitted iterations. -/
theorem C5_poll_bound_and_timeout_witness :
    (transfer_account penvNeverReady "sh" "su" "sp" "dh" "du" "dp").1
      = (false, "Backup file was not ready in time.") ∧
    (pollLoop penvNeverReady.polls 0 (poll_timeout / poll_interval)).2 ≤ 60 :=
  ⟨(C5_poll_bound_and_timeout penvNeverReady "sh" "su" "sp" "dh" "du" "dp").2 rfl
      (fun _ => rfl),
   (C5_poll_bound_and_timeout penvNeverReady "sh" "su" "sp" "dh" "du" "dp").1⟩

/-- C3: when the conflict check returns `connection_error`, `username_conflict`,
or `overwrite_allowed` while the request's overwrite flag is false, the route
flashes and redirects immediately and the transfer pipeline is never invoked. -/
theorem C3_blocking_outcome_skips_pipeline (cenv : DestEnv) (penv : PipeEnv)
    (r : MigrationRequest)
    (h : (check_destination_account cenv r.destination_host r.destination_root_user
            r.destination_root_pass r.domain r.username).1 = .connection_error ∨
         (check_destination_account cenv r.destination_host r.destination_root_user
            r.destination_root_pass r.domain r.username).1 = .username_conflict ∨
         ((check_destination_account cenv r.destination_host r.destination_root_user
             r.destination_root_pass r.domain r.username).1 = .overwrite_allowed ∧
          r.overwrite = false)) :
    (index cenv penv r).2.2 = none ∧ (index cenv penv r).1.isRedirect = true := by
  rcases h with h | h | ⟨h, hov⟩
  · simp [index, h, IndexOutcome.isRedirect]
  · simp [index, h, IndexOutcome.isRedirect]
  · simp [index, h, hov, IndexOutcome.isRedirect]

/-- Concrete instance of `C3_blocking_outcome_skips_pipeline`: an unreachable
destination yields `connection_error`, the pipeline is skipped and the user is
redirected. -/
theorem C3_blocking_outcome_skips_pipeline_witness :
    (index cenvConnFail penvAllGood reqStd).2.2 = none ∧
    (index cenvConnFail penvAllGood reqStd).1.isRedirect = true :=
  C3_blocking_outcome_skips_pipeline cenvConnFail penvAllGood reqStd (Or.inl (by decide))

/-- C1 is falsified by the code: here the conflict check returns
`domain_conflict`, yet the route's `else` branch still runs the whole transfer
pipeline — the backup trigger fires, the artifact is uploaded to the
destination and the restore command is executed, i.e. remote mutation occurs
after a domain conflict. -/
theorem C1_domain_conflict_still_runs_pipeline :
    (check_destination_account cenvDomainConflict reqStd.destination_host
        reqStd.destination_root_user reqStd.destination_root_pass
        reqStd.domain reqStd.username).1 = .domain_conflict ∧
    ((index cenvDomainConflict penvAllGood reqStd).2.2.map
        (fun t => (t.triggerRequested, t.uploaded, t.restoreRan)))
      = some (true, ["/home/backup-file.tar.gz"], true) := by decide

/-- C4 is falsified by the code: the route performs no validation, so a
request with an empty username still reaches `check_destination_account`,
which attempts the SSH connection and runs the probe command with the empty
username spliced in — network I/O happens and no validation error exists. -/
theorem C4_empty_username_still_reaches_network :
    reqEmptyUsername.username = "" ∧
    (index cenvEmptyAnswers penvAllGood reqEmptyUsername).2.1.connectAttempted = true ∧
    (index cenvEmptyAnswers penvAllGood reqEmptyUsername).2.1.commandsRun.head?
      = some "/scripts/whoowns " := by decide

/-- C6 counterexample: a restore that terminates with exit status 1 after
producing no output chunks returns success = false with an EMPTY transcript,
refuting the claim that the transcript is always non-empty. -/
theorem C6_counterexample_empty_transcript :
    (transfer_account penvRestoreFails "sh" "su" "sp" "dh" "du" "dp").2.restoreRan = true ∧
    penvRestoreFails.restoreExit = 1 ∧
    (transfer_account penvRestoreFails "sh" "su" "sp" "dh" "du" "dp").1 = (false, "") := by
  decide

/-- C6 (amended): whenever the restore step runs and terminates with a
non-zero exit status, the pipeline returns success = false together with the
transcript formed of exactly the output chunks captured before termination —
the partial transcript is returned, not discarded, though it is empty when the
restore produced no output. -/
theorem C6_nonzero_exit_returns_partial_transcript (env : PipeEnv)
    (a b c d e f : String)
    (hrun : (transfer_account env a b c d e f).2.restoreRan = true)
    (hexit : env.restoreExit ≠ 0) :
    (transfer_account env a b c d e f).1 = (false, String.join env.restoreChunks) := by
  rcases eq_or_ne env.triggerStatus 200 with ht | ht
  · simp only [transfer_account, ht, ne_eq, not_true_eq_false, reduceIte] at hrun ⊢
    rcases hp : (pollLoop env.polls 0 (poll_timeout / poll_interval)).1 with _ | u
    · rw [hp] at hrun
      simp at hrun
    · rw [hp] at hrun
      rcases eq_or_ne env.downloadStatus 200 with hd | hd
      · rcases hc : env.sshConnectExn with _ | exn
        · rw [hc] at hrun
          rcases hs : env.sftpPutExn with _ | exn2
          · simp [hd, hexit]
          · rw [hs] at hrun
            simp [hd] at hrun
        · rw [hc] at hrun
          simp [hd] at hrun
      · simp [hd] at hrun
  · simp [transfer_account, ht] at hrun

/-- Concrete instance of `C6_nonzero_exit_returns_partial_transcript`: a
restore exiting 2 after printing two chunks returns them concatenated. -/
theorem C6_nonzero_exit_returns_partial_transcript_witness :
    (transfer_account penvRestoreFailsChunks "sh" "su" "sp" "dh" "du" "dp").1
      = (false, String.join ["chunk1 ", "chunk2"]) :=
  C6_nonzero_exit_returns_partial_transcript penvRestoreFailsChunks
    "sh" "su" "sp" "dh" "du" "dp" (by decide) (by decide)

/-- C7 is falsified by the code: a local exception raised after a successful
SSH connect is caught and turned into a result, but the session is never
closed — neither in `check_destination_account` (whose `except` path returns
`connection_error` with the session still open) nor in `transfer_account`
(whose `except` path after the SFTP connect likewise leaves the session open). -/
theorem C7_session_left_open_on_exception :
    ((check_destination_account cenvExecRaises reqStd.destination_host
        reqStd.destination_root_user reqStd.destination_root_pass
        reqStd.domain reqStd.username).1 = .connection_error ∧
     (check_destination_account cenvExecRaises reqStd.destination_host
        reqStd.destination_root_user reqStd.destination_root_pass
        reqStd.domain reqStd.username).2.sessionOpened = true ∧
     (check_destination_account cenvExecRaises reqStd.destination_host
        reqStd.destination_root_user reqStd.destination_root_pass
        reqStd.domain reqStd.username).2.sessionClosed = false) ∧
    ((transfer_account penvSftpRaises "sh" "su" "sp" "dh" "du" "dp").2.sshOpened = true ∧
     (transfer_account penvSftpRaises "sh" "su" "sp" "dh" "du" "dp").2.sshClosed = false) := by
  decide

/-- C8 is falsified by the code: the backup file written to /home at download
time is still present in local storage when the pipeline completes, both after
a fully successful run and after a failed restore — no path removes it. -/
theorem C8_local_artifact_never_removed :
    ((transfer_account penvAllGood "sh" "su" "sp" "dh" "du" "dp").1.1 = true ∧
     (transfer_account penvAllGood "sh" "su" "sp" "dh" "du" "dp").2.localFiles
       = ["/home/backup-file.tar.gz"]) ∧
    ((transfer_account penvRestoreFails "sh" "su" "sp" "dh" "du" "dp").1.1 = false ∧
     (transfer_account penvRestoreFails "sh" "su" "sp" "dh" "du" "dp").2.localFiles
       = ["/home/backup-file.tar.gz"]) := by
  decide

/-- C9: when the poll finds a ready download reference and the artifact
download returns 200, the local filename is exactly the basename of the
download reference and the artifact path is `/home/<basename>` — no renaming
on any subsequent path of the pipeline. -/
theorem C9_local_filename_is_basename (env : PipeEnv) (a b c d e f : String)
    (u : String) (ht : env.triggerStatus = 200)
    (hp : (pollLoop env.polls 0 (poll_timeout / poll_interval)).1 = some u)
    (hd : env.downloadStatus = 200) :
    (transfer_account env a b c d e f).2.downloadFilename = some (basename u) ∧
    (transfer_account env a b c d e f).2.downloadPath = some ("/home/" ++ basename u) := by
  simp only [transfer_account, ht, ne_eq, not_true_eq_false, reduceIte, hp]
  rcases hc : env.sshConnectExn with _ | exn
  · rcases hs : env.sftpPutExn with _ | exn2
    · rcases eq_or_ne env.restoreExit 0 with hr | hr
      · simp [hd, hr]
      · simp [hd, hr]
    · simp [hd]
  · simp [hd]

/-- Concrete instance of `C9_local_filename_is_basename` on a ready reference
ending in `backup-file.tar.gz`. -/
theorem C9_local_filename_is_basename_witness :
    (transfer_account penvAllGood "sh" "su" "sp" "dh" "du" "dp").2.downloadFilename
      = some (basename "https://src:2083/download/backup-file.tar.gz") ∧
    (transfer_account penvAllGood "sh" "su" "sp" "dh" "du" "dp").2.downloadPath
      = some ("/home/" ++ basename "https://src:2083/download/backup-file.tar.gz") :=
  C9_local_filename_is_basename penvAllGood "sh" "su" "sp" "dh" "du" "dp"
    "https://src:2083/download/backup-file.tar.gz" rfl (by decide) rfl

/-- C10: the pipeline call made by the route passes only host and credential
fields, so two requests that agree on those six fields — whatever their
username, domain and overwrite flag — produce the very same pipeline behaviour:
same backup trigger, same artifact, same restore, same result and trace. -/
theorem C10_pipeline_ignores_account_identity (env : PipeEnv)
    (r1 r2 : MigrationRequest)
    (h1 : r1.source_host = r2.source_host)
    (h2 : r1.source_user = r2.source_user)
    (h3 : r1.source_pass = r2.source_pass)
    (h4 : r1.destination_host = r2.destination_host)
    (h5 : r1.destination_root_user = r2.destination_root_user)
    (h6 : r1.destination_root_pass = r2.destination_root_pass) :
    runPipeline env r1 = runPipeline env r2 := by
  unfold runPipeline
  rw [h1, h2, h3, h4, h5, h6]

/-- Concrete instance of `C10_pipeline_ignores_account_identity`: the requests
for accounts alice/alice.com and bob/bob.org (same hosts and credentials)
drive identical pipelines. -/
theorem C10_pipeline_ignores_account_identity_witness :
    reqAlice.username ≠ reqBob.username ∧ reqAlice.domain ≠ reqBob.domain ∧
    runPipeline penvAllGood reqAlice = runPipeline penvAllGood reqBob :=
  ⟨by decide, by decide,
   C10_pipeline_ignores_account_identity penvAllGood reqAlice reqBob
     rfl rfl rfl rfl rfl rfl⟩
